import Mathlib

/-!
Verification of the subscription tracking/polling engine of `fullbr115`
(`app/services/subscription.py`) against its natural-language specification.

Conventions of the shallow embedding:
* Python `str` is Lean `String` (operated on as `List Char` where character
  scanning is needed).  Python truthiness of an optional string is modelled
  by `Option String` with `some ""` / `none` both falsy where the source
  tests truthiness.
* Python `int` is `Nat` (all integers involved are non-negative episode
  numbers, counts, ids and clock readings).
* Python `float` (only used by the size comparator `_parse_size`) is
  modelled by exact non-negative decimal fractions `SizeVal` (a value
  `mant / 10 ^ scale`); the decimal literals produced by the source's
  regex are exactly representable, and only the ordering of the results
  is ever consumed (`sizeLt`, `sizeLe`).
* `datetime` instants are seconds on an abstract monotone clock (`Nat`);
  `timedelta(hours=h)` is `h * 3600`, `timedelta(days=1)` is `86400`.
  `strftime`/`strptime` round-trip losslessly, so a timestamp *field*
  (which in the source is an optional formatted string) is the inductive
  `TimeVal`: `TimeVal.none` (Python `None`/`""`, falsy), `TimeVal.bad s`
  (a non-empty string `strptime` rejects), `TimeVal.time t` (a string that
  parses back to instant `t`).
* Collaborators (`tmdb_service`, `nullbr_service`, `p115_service`) are
  oracles passed explicitly (`Deps`, `AddDeps`); a call that may raise is
  an `Except String` oracle.  Calls to the offline-download backend are
  additionally logged (`DispatchCall`) so that theorems can speak about the
  arguments the code hands to the storage backend.
* Python's `re` scanning for the three concrete patterns of the source is
  implemented directly: leftmost match, greedy quantifiers (no earlier
  start position can be skipped).  `\d` is modelled as ASCII digits and
  `str.upper` as ASCII upcasing; the patterns themselves only involve
  ASCII letters, digits and CJK characters that both functions fix.
-/

/-- Numeric value of a digit string, `int("...")` on an all-digit group. -/
def digitsVal (cs : List Char) : Nat :=
  cs.foldl (fun a c => a * 10 + (c.toNat - 48)) 0

/-- `str.upper()` restricted to ASCII (see header). -/
def upperChars (s : String) : List Char :=
  s.data.map Char.toUpper

/-- Split a character list at every `'.'` (Python `str.split('.')`). -/
def splitDots : List Char → List (List Char)
  | [] => [[]]
  | c :: rest =>
    let r := splitDots rest
    if c = '.' then [] :: r
    else
      match r with
      | h :: t => (c :: h) :: t
      | [] => [[c]]

/-- Does `pat` occur at the head of `cs`? -/
def leadEq : List Char → List Char → Bool
  | [], _ => true
  | _ :: _, [] => false
  | p :: ps, c :: cs => p == c && leadEq ps cs

/-- Python `str.replace(pat, rep)`: non-overlapping, left to right.  Fuel
recursion (fuel = remaining input length, which each step strictly
decreases) keeps the definition kernel-reducible. -/
def pyReplaceAux (pat rep : List Char) : Nat → List Char → List Char
  | 0, l => l
  | _ + 1, [] => []
  | f + 1, c :: rest =>
    if 0 < pat.length ∧ leadEq pat (c :: rest) then
      rep ++ pyReplaceAux pat rep f (List.drop (pat.length - 1) rest)
    else
      c :: pyReplaceAux pat rep f rest

/-- Python `str.replace(pat, rep)`. -/
def pyReplace (pat rep l : List Char) : List Char :=
  pyReplaceAux pat rep l.length l

/-- `f"{base_path}/{title}".replace("//", "/")`: the per-title storage path
computed identically in `add_subscription` and `_process_tv`. -/
def targetPath (basePath title : String) : String :=
  String.mk (pyReplace "//".data "/".data (basePath ++ "/" ++ title).data)

/-- Python string `<` (lexicographic on code points), written out so
that it is kernel-reducible. -/
def pyStrLtChars : List Char → List Char → Bool
  | [], [] => false
  | [], _ :: _ => true
  | _ :: _, [] => false
  | a :: as, b :: bs =>
    if a.toNat < b.toNat then true
    else if a.toNat = b.toNat then pyStrLtChars as bs
    else false

/-- Python `s1 < s2` on strings. -/
def pyStrLt (s1 s2 : String) : Bool :=
  pyStrLtChars s1.data s2.data

/-- A character the group `[\d.]` of `_parse_size`'s regex accepts. -/
def sizeDigitChar (c : Char) : Bool :=
  c.isDigit || c == '.'

/-- A character `\s` accepts (ASCII whitespace, see header). -/
def spaceChar (c : Char) : Bool :=
  c == ' ' || c == '\t' || c == '\n' || c == '\x0b' || c == '\x0c' || c == '\r'

/-- Leftmost match of `([\d.]+)\s*([a-zA-Z]+)`: the number group and the
unit group, or `none`.  Both `+` groups are greedy; since a digit/dot can
never satisfy `\s*`-then-letter after backtracking, the maximal runs are
the only candidates at each start position. -/
def searchSize : List Char → Option (List Char × List Char)
  | [] => Option.none
  | c :: rest =>
    if sizeDigitChar c then
      let ds := List.takeWhile sizeDigitChar (c :: rest)
      let r1 := List.dropWhile sizeDigitChar (c :: rest)
      let r2 := List.dropWhile spaceChar r1
      let us := List.takeWhile Char.isAlpha r2
      if us = [] then searchSize rest else some (ds, us)
    else searchSize rest

/-- Exact model of the non-negative `float` values `_parse_size` produces:
the rational `mant / 10 ^ scale`. -/
structure SizeVal where
  mant : Nat
  scale : Nat
deriving DecidableEq

/-- Strict order on `SizeVal` (cross multiplication; denominators
`10 ^ scale` are always positive). -/
def sizeLt (a b : SizeVal) : Bool :=
  a.mant * 10 ^ b.scale < b.mant * 10 ^ a.scale

/-- Non-strict order on `SizeVal`. -/
def sizeLe (a b : SizeVal) : Prop :=
  a.mant * 10 ^ b.scale ≤ b.mant * 10 ^ a.scale

/-- Python `float()` on a `[\d.]+` group: at most one dot, at least one
digit; `none` models the `ValueError` the source's `except` swallows. -/
def pyFloat (cs : List Char) : Option SizeVal :=
  match splitDots cs with
  | [a] =>
    if a ≠ [] ∧ a.all Char.isDigit then some ⟨digitsVal a, 0⟩ else Option.none
  | [a, b] =>
    if a ++ b ≠ [] ∧ a.all Char.isDigit ∧ b.all Char.isDigit then
      some ⟨digitsVal a * 10 ^ b.length + digitsVal b, b.length⟩
    else Option.none
  | _ => Option.none

/-- The `units` dictionary of `_parse_size` (`dict.get(unit, 1)`). -/
def unitMult (u : String) : Nat :=
  if u = "B" then 1
  else if u = "KB" then 1024
  else if u = "MB" then 1024 ^ 2
  else if u = "GB" then 1024 ^ 3
  else if u = "TB" then 1024 ^ 4
  else 1

/-- `SubscriptionService._parse_size`: best-effort size comparator.  Empty
string, no regex match, and unparseable number all yield `0`. -/
def parseSize (size_str : String) : SizeVal :=
  if size_str = "" then ⟨0, 0⟩
  else
    match searchSize size_str.data with
    | Option.none => ⟨0, 0⟩
    | some (numCs, unitCs) =>
      match pyFloat numCs with
      | Option.none => ⟨0, 0⟩
      | some q => ⟨q.mant * unitMult (String.mk (unitCs.map Char.toUpper)), q.scale⟩

/-- Match of `第(\d+)[-~](\d+)集` anchored at the head of `cs`; returns
`group(2)` as a number. -/
def zhMatchAt (cs : List Char) : Option Nat :=
  match cs with
  | [] => Option.none
  | c :: rest =>
    if c = '第' then
      let d1 := List.takeWhile Char.isDigit rest
      let r1 := List.dropWhile Char.isDigit rest
      if d1 = [] then Option.none
      else
        match r1 with
        | m :: r2 =>
          if m = '-' ∨ m = '~' then
            let d2 := List.takeWhile Char.isDigit r2
            let r3 := List.dropWhile Char.isDigit r2
            if d2 = [] then Option.none
            else
              match r3 with
              | e :: _ => if e = '集' then some (digitsVal d2) else Option.none
              | [] => Option.none
          else Option.none
        | [] => Option.none
    else Option.none

/-- `re.search(r'第(\d+)[-~](\d+)集', name)`: leftmost match wins. -/
def zhSearch : List Char → Option Nat
  | [] => Option.none
  | c :: rest =>
    match zhMatchAt (c :: rest) with
    | some v => some v
    | Option.none => zhSearch rest

/-- A character the (buggy) class `[E|EP]` of the source accepts: one of
`E`, `|`, `P`. -/
def epClassChar (c : Char) : Bool :=
  c == 'E' || c == '|' || c == 'P'

/-- Match of `[E|EP](\d+)[-~][E|EP]?(\d+)` anchored at the head of `cs`;
returns `group(2)`.  The optional `[E|EP]?` is greedy: it consumes a class
character exactly when digits follow it (otherwise backtracking to the
empty option also fails, as class characters are not digits). -/
def enMatchAt (cs : List Char) : Option Nat :=
  match cs with
  | [] => Option.none
  | c :: rest =>
    if epClassChar c then
      let d1 := List.takeWhile Char.isDigit rest
      let r1 := List.dropWhile Char.isDigit rest
      if d1 = [] then Option.none
      else
        match r1 with
        | m :: r2 =>
          if m = '-' ∨ m = '~' then
            match r2 with
            | c2 :: r3 =>
              if epClassChar c2 then
                let d2 := List.takeWhile Char.isDigit r3
                if d2 = [] then Option.none else some (digitsVal d2)
              else
                let d2 := List.takeWhile Char.isDigit r2
                if d2 = [] then Option.none else some (digitsVal d2)
            | [] => Option.none
          else Option.none
        | [] => Option.none
    else Option.none

/-- `re.search(r'[E|EP](\d+)[-~][E|EP]?(\d+)', name)`: leftmost match. -/
def enSearch : List Char → Option Nat
  | [] => Option.none
  | c :: rest =>
    match enMatchAt (c :: rest) with
    | some v => some v
    | Option.none => enSearch rest

/-- `SubscriptionService._extract_max_episode`: highest episode number a
release title is inferred to cover.  The source's `try/except` is dead in
this total model (no sub-operation can raise), preserving "never raises;
an internal failure is a non-match". -/
def extractMaxEpisode (filename : String) (default_ep : Nat) : Nat :=
  let name := upperChars filename
  match zhSearch name with
  | some e => max e default_ep
  | Option.none =>
    match enSearch name with
    | some e => if e < 1900 then max e default_ep else default_ep
    | Option.none => default_ep


/-- A timestamp field (`Optional[str]` holding a `"%Y-%m-%d %H:%M:%S"`
string in the source): `none` is Python `None`/`""` (falsy), `bad s` a
non-empty string `strptime` rejects, `time t` a well-formed string for
instant `t`. -/
inductive TimeVal where
  | none
  | bad (s : String)
  | time (t : Nat)
deriving DecidableEq

/-- A release returned by the resource client (`MediaResource`,
app/models/schemas.py): the four fields the core consumes.  A `None`
link is modelled as `""` (the source only tests truthiness). -/
structure Release where
  title : String
  size : String
  link : String
  link_type : String
deriving DecidableEq

/-- Modelled from the spec: the pydantic `Subscription` model lives in
`app.models.schemas` but is not under src/; its fields and defaults
follow §3 of the spec and the constructor calls / field accesses in
`app/services/subscription.py` (the constructor in `add_subscription`
passes only the first five fields plus `next_check_time`, so every other
field must carry a default; `status` starts `active`, counters at 0). -/
structure Subscription where
  id : String
  tmdb_id : Nat
  media_type : String
  title : String
  poster_path : String
  release_date : Option String := Option.none
  season_number : Nat := 0
  total_episodes : Nat := 0
  current_episode : Nat := 0
  episode_air_dates : List (String × String) := []
  save_cid : Option String := Option.none
  status : String := "active"
  message : String := ""
  last_check_time : TimeVal := TimeVal.none
  next_check_time : TimeVal := TimeVal.none
deriving DecidableEq

/-- Modelled from the spec: the pydantic `SubscriptionRequest` model is
not under src/; fields follow the accesses in `add_subscription`. -/
structure SubscriptionRequest where
  media_type : String
  tmdb_id : Nat
  title : String
  poster_path : String
  season_number : Nat
  start_episode : Nat
deriving DecidableEq

/-- One episode of `Season.episodes` (app/models/schemas.py), restricted
to the fields `add_subscription` reads. -/
structure SeasonEpisode where
  episode_number : Nat
  air_date : Option String
deriving DecidableEq

/-- `Season` (app/models/schemas.py), restricted to the fields
`add_subscription` reads. -/
structure SeasonInfo where
  episode_count : Nat
  episodes : List SeasonEpisode
deriving DecidableEq

/-- `MediaDetail` (app/models/schemas.py), restricted to the field
`add_subscription` reads for movies. -/
structure MovieDetails where
  release_date : Option String
deriving DecidableEq

/-- One call to `p115_service.add_offline_tasks`, as recorded by the
embedding so theorems can inspect the arguments handed to the backend. -/
structure DispatchCall where
  link : String
  to_cid : Option String
  save_path : Option String
deriving DecidableEq

/-- The collaborators a check cycle consumes, as oracles:
`nullbr_service.fetch_movie`, `nullbr_service.fetch_tv_episode`,
the success of `p115_service.add_offline_tasks` (an exception inside it
and a `success: False` reply are both `false`), and the configuration
value `settings.P115_DOWNLOAD_PATH`. -/
structure Deps where
  fetchMovie : Nat → List Release
  fetchEp : Nat → Nat → Nat → List Release
  dispatch : DispatchCall → Bool
  downloadPath : String

/-- The extra collaborators `add_subscription` consumes:
`tmdb_service.get_details_full` / `get_season_details` and
`p115_service.get_target_cid` (each may raise: `Except.error` carries
`str(e)`). -/
structure AddDeps where
  movieDetails : Nat → Except String MovieDetails
  seasonInfo : Nat → Nat → Except String SeasonInfo
  resolveCid : String → Except String Nat
  deps : Deps

/-- `SubscriptionService._perform_download`: refuse any link kind outside
`['magnet', 'ed2k']` without touching the backend; otherwise forward one
request and report its boolean outcome.  Also returns the backend calls
made. -/
def performDownload (deps : Deps) (r : Release) (to_cid : Option String)
    (save_path : Option String) : Bool × List DispatchCall :=
  if r.link_type = "magnet" ∨ r.link_type = "ed2k" then
    let c : DispatchCall := ⟨r.link, to_cid, save_path⟩
    (deps.dispatch c, [c])
  else
    (false, [])

/-- The filter applied to fetched resources in `_process_movie` and
`_process_tv`: `r.link and r.link_type in ['magnet', 'ed2k']`. -/
def acceptRes (r : Release) : Bool :=
  r.link != "" && (r.link_type == "magnet" || r.link_type == "ed2k")

/-- `valid_res.sort(key=lambda x: self._parse_size(x.size), reverse=True)`
followed by `valid_res[0]`: Python's sort is stable and `reverse=True`
keeps equal keys in discovery order, so the chosen element is the first
one attaining the maximal parsed size.  `none` exactly when the list is
empty (the source only indexes after an emptiness check). -/
def selectBest : List Release → Option Release
  | [] => Option.none
  | r :: rs =>
    match selectBest rs with
    | Option.none => some r
    | some b => if sizeLt (parseSize r.size) (parseSize b.size) then some b else some r

/-- `SubscriptionService._defer_check`. -/
def deferCheck (sub : Subscription) (now : Nat) (hours : Nat) (msg : String) : Subscription :=
  { sub with message := msg, next_check_time := TimeVal.time (now + hours * 3600) }

/-- Python `str(None)` as it appears inside an f-string interpolating an
optional string. -/
def pyShowOpt : Option String → String
  | Option.none => "None"
  | some s => s

/-- The movie not-yet-released gate of `_process_movie`:
`sub.release_date and sub.release_date > today_str` (string comparison on
ISO dates; an empty or missing date is falsy). -/
def releaseGate (today : String) (sub : Subscription) : Bool :=
  match sub.release_date with
  | some rd => rd != "" && pyStrLt today rd
  | Option.none => false

/-- `SubscriptionService._process_movie`.  Returns the updated record and
the backend calls made. -/
def processMovie (now : Nat) (today : String) (deps : Deps) (sub : Subscription) :
    Subscription × List DispatchCall :=
  if releaseGate today sub then
    ({ sub with message := "尚未上映，等待 " ++ pyShowOpt sub.release_date,
                next_check_time := TimeVal.time (now + 86400) }, [])
  else
    let valid := (deps.fetchMovie sub.tmdb_id).filter acceptRes
    match selectBest valid with
    | Option.none => (deferCheck sub now 8 "暂无磁力/Ed2k资源", [])
    | some tgt =>
      let dl := performDownload deps tgt sub.save_cid (some deps.downloadPath)
      if dl.1 then
        ({ sub with status := "completed",
                    message := "已获取资源: " ++ tgt.title ++ " (" ++ tgt.size ++ ")" }, dl.2)
      else
        (deferCheck sub now 8 "下载任务添加失败，稍后重试", dl.2)

/-- The season-finished gate of the `_process_tv` loop:
`sub.total_episodes > 0 and target_ep > sub.total_episodes` for
`target_ep = current_episode + 1`. -/
def finishedGate (sub : Subscription) : Bool :=
  decide (0 < sub.total_episodes) && decide (sub.total_episodes < sub.current_episode + 1)

/-- The not-yet-aired gate of the `_process_tv` loop:
`air_date and air_date > today_str` on
`sub.episode_air_dates.get(str(target_ep))`. -/
def airGate (today : String) (sub : Subscription) : Bool :=
  match sub.episode_air_dates.lookup (toString (sub.current_episode + 1)) with
  | some d => d != "" && pyStrLt today d
  | Option.none => false

/-- Whether the `while` loop of `_process_tv` goes on to another
iteration (`continue`) or leaves (`break`). -/
inductive TvCtrl where
  | go
  | halt
deriving DecidableEq

/-- Result of one `_process_tv` loop iteration: updated record, backend
calls, the episode number the iteration targeted, and the loop control. -/
structure TvStepResult where
  sub : Subscription
  calls : List DispatchCall
  target : Nat
  ctrl : TvCtrl
deriving DecidableEq

/-- The fetch-and-dispatch part of a `_process_tv` iteration (steps 3-5
of §4.4's series branch). -/
def tvFetch (now : Nat) (deps : Deps) (path : String) (sub : Subscription)
    (target : Nat) : TvStepResult :=
  let valid := (deps.fetchEp sub.tmdb_id sub.season_number target).filter acceptRes
  match selectBest valid with
  | Option.none =>
    ⟨deferCheck sub now 8 ("第 " ++ toString target ++ " 集暂无资源"), [], target, TvCtrl.halt⟩
  | some tgt =>
    let dl := performDownload deps tgt sub.save_cid (some path)
    if dl.1 then
      let newCur := extractMaxEpisode tgt.title target
      let sub2 :=
        if target < newCur then
          { sub with current_episode := newCur,
                     message := "已添加打包资源 (" ++ toString target ++ "-" ++
                                toString newCur ++ ")，继续搜索下一集" }
        else
          { sub with current_episode := target,
                     message := "已添加第 " ++ toString target ++ " 集 (" ++ tgt.size ++ ")" }
      ⟨{ sub2 with next_check_time := TimeVal.time now }, dl.2, target, TvCtrl.go⟩
    else
      ⟨deferCheck sub now 8 ("E" ++ toString target ++ " 下载失败"), dl.2, target, TvCtrl.halt⟩

/-- One full iteration of the `_process_tv` loop. -/
def tvStep (now : Nat) (today : String) (deps : Deps) (path : String)
    (sub : Subscription) : TvStepResult :=
  let target := sub.current_episode + 1
  if finishedGate sub then
    ⟨{ sub with status := "completed", message := "本季已完结" }, [], target, TvCtrl.halt⟩
  else if airGate today sub then
    ⟨{ sub with message := "等待第 " ++ toString target ++ " 集上映 (" ++
                           pyShowOpt (sub.episode_air_dates.lookup (toString target)) ++ ")",
                next_check_time := TimeVal.time (now + 86400) }, [], target, TvCtrl.halt⟩
  else
    tvFetch now deps path sub target

/-- The `while loops < max_loops` loop of `_process_tv`, with the
remaining iteration budget as fuel.  Returns the final record, all
backend calls, and the number of iterations executed. -/
def processTvAux (fuel : Nat) (now : Nat) (today : String) (deps : Deps) (path : String)
    (sub : Subscription) : Subscription × List DispatchCall × Nat :=
  match fuel with
  | 0 => (sub, [], 0)
  | f + 1 =>
    let r := tvStep now today deps path sub
    match r.ctrl with
    | TvCtrl.halt => (r.sub, r.calls, 1)
    | TvCtrl.go =>
      let rest := processTvAux f now today deps path r.sub
      (rest.1, r.calls ++ rest.2.1, rest.2.2 + 1)

/-- `SubscriptionService._process_tv`: `max_loops = 50`. -/
def processTv (now : Nat) (today : String) (deps : Deps) (path : String)
    (sub : Subscription) : Subscription × List DispatchCall × Nat :=
  processTvAux 50 now today deps path sub

/-- `_process_tv` as invoked (it computes its own show path from the
configured download root and the subscription title). -/
def processTvEntry (now : Nat) (today : String) (deps : Deps) (sub : Subscription) :
    Subscription × List DispatchCall × Nat :=
  processTv now today deps (targetPath deps.downloadPath sub.title) sub

/-- The outcome of processing one due subscription, as seen at the
scheduler's `try` boundary: the fully updated record, or the message of
an exception a collaborator raised (`str(e)`).  The concrete step is the
appropriate `processMovie` / `processTvEntry`; claims about the boundary
quantify over this function. -/
abbrev StepFun := Subscription → Except String Subscription

/-- The body the scheduler runs for a due, non-completed subscription:
on success also stamp `last_check_time = now`; on an exception record
`f"检查出错: {e}"` into `message` and move on. -/
def runDue (now : Nat) (stepF : StepFun) (s : Subscription) : Subscription :=
  match stepF s with
  | Except.ok s2 => { s2 with last_check_time := TimeVal.time now }
  | Except.error e => { s with message := "检查出错: " ++ e }

/-- The due test of `check_all_subscriptions`: skip only when
`next_check_time` is a well-formed timestamp strictly in the future; a
falsy or malformed one is treated as due (`except: pass`). -/
def dueNow (now : Nat) (s : Subscription) : Bool :=
  match s.next_check_time with
  | TimeVal.time t => !decide (now < t)
  | TimeVal.none => true
  | TimeVal.bad _ => true

/-- What one `check_all_subscriptions` pass does to one subscription:
`completed` is skipped outright, a not-yet-due one is skipped, and a due
one is run behind the per-subscription `try`. -/
def checkOne (now : Nat) (stepF : StepFun) (s : Subscription) : Subscription :=
  if s.status == "completed" then s
  else if dueNow now s then runDue now stepF s
  else s

/-- `SubscriptionService.check_all_subscriptions`: iterate the stored
list in order, handling each subscription independently. -/
def checkAll (now : Nat) (stepF : StepFun) : List Subscription → List Subscription
  | [] => []
  | s :: rest => checkOne now stepF s :: checkAll now stepF rest

/-- The id `add_subscription` derives:
`f"{media_type}_{tmdb_id}"` plus `f"_s{season_number}"` for tv. -/
def derivedId (req : SubscriptionRequest) : String :=
  req.media_type ++ "_" ++ toString req.tmdb_id ++
    (if req.media_type = "tv" then "_s" ++ toString req.season_number else "")

/-- Insertion into the `air_dates` Python dict: overwrite an existing
key in place, append a new one. -/
def dictInsert : List (String × String) → String → String → List (String × String)
  | [], k, v => [(k, v)]
  | (k0, v0) :: rest, k, v =>
    if k0 = k then (k0, v) :: rest else (k0, v0) :: dictInsert rest k v

/-- The `air_dates` dict built in `add_subscription`: one entry per
episode whose `air_date` is truthy, keyed by `str(episode_number)`. -/
def buildAirDates (eps : List SeasonEpisode) : List (String × String) :=
  eps.foldl
    (fun m e =>
      match e.air_date with
      | some d => if d ≠ "" then dictInsert m (toString e.episode_number) d else m
      | Option.none => m)
    []

/-- `SubscriptionService.add_subscription`.  Returns the
`(success, message)` reply and the new subscription list.  The immediate
post-add check (`_process_movie` / `_process_tv` on the fresh record) is
included; persistence is the list itself. -/
def addSubscription (now : Nat) (today : String) (adeps : AddDeps)
    (req : SubscriptionRequest) (subs : List Subscription) :
    (Bool × String) × List Subscription :=
  let sub_id := derivedId req
  if subs.any (fun s => s.id == sub_id) then
    ((false, "已在订阅列表中"), subs)
  else
    let base : Subscription :=
      { id := sub_id, tmdb_id := req.tmdb_id, media_type := req.media_type,
        title := req.title, poster_path := req.poster_path,
        next_check_time := TimeVal.time now }
    if req.media_type = "movie" then
      match adeps.movieDetails req.tmdb_id with
      | Except.error e => ((false, "初始化失败: " ++ e), subs)
      | Except.ok det =>
        let s1 := { base with
          release_date := det.release_date,
          message := "等待上映 (" ++ pyShowOpt det.release_date ++ ")" }
        let s2 := (processMovie now today adeps.deps s1).1
        ((true, "订阅成功，后台已开始搜索资源"), subs ++ [s2])
    else
      match adeps.seasonInfo req.tmdb_id req.season_number with
      | Except.error e => ((false, "初始化失败: " ++ e), subs)
      | Except.ok info =>
        let s1 := { base with
          season_number := req.season_number,
          total_episodes := info.episode_count,
          episode_air_dates := buildAirDates info.episodes,
          current_episode := req.start_episode - 1,
          message := "订阅至第 " ++ toString req.season_number ++ " 季，从第 " ++
                     toString req.start_episode ++ " 集开始" }
        let path := targetPath adeps.deps.downloadPath req.title
        let s2 :=
          match adeps.resolveCid path with
          | Except.ok cid => { s1 with save_cid := some (toString cid) }
          | Except.error _ =>
            { s1 with message := s1.message ++ " (注意: 文件夹创建失败，使用默认目录)" }
        let s3 := (processTv now today adeps.deps path s2).1
        ((true, "订阅成功，后台已开始搜索资源"), subs ++ [s3])

/-- `SubscriptionService.delete_subscription`. -/
def deleteSubscription (sub_id : String) (subs : List Subscription) : List Subscription :=
  subs.filter (fun s => s.id ≠ sub_id)

/-! Concrete sample data used by the witness theorems below. -/

/-- A step that never raises and changes nothing. -/
def okStep : StepFun := fun s => Except.ok s

/-- A step that always raises, as a collaborator failure would. -/
def errStep : StepFun := fun _ => Except.error "连接失败"

/-- A pack release covering episodes 13-15. -/
def demoPackRelease : Release := ⟨"第13-15集", "1GB", "magnet:aaa", "magnet"⟩

/-- Resource client oracles for the series demo: every episode search
finds the pack release and every dispatch succeeds. -/
def demoTvDeps : Deps :=
  ⟨fun _ => [], fun _ _ _ => [demoPackRelease], fun _ => true, "/dl"⟩

/-- A series subscription that has dispatched up to episode 12. -/
def demoTvSub : Subscription :=
  { id := "tv_9_s1", tmdb_id := 9, media_type := "tv", title := "S",
    poster_path := "", season_number := 1, current_episode := 12 }

/-- A finished subscription. -/
def demoCompletedSub : Subscription :=
  { id := "movie_1", tmdb_id := 1, media_type := "movie", title := "M1",
    poster_path := "", status := "completed" }

/-- A small movie release (300 MB). -/
def demoRelSmall : Release := ⟨"Movie.small", "300MB", "magnet:s", "magnet"⟩

/-- A large movie release (1.5 GB). -/
def demoRelBig : Release := ⟨"Movie.big", "1.5 GB", "ed2k://big", "ed2k"⟩

/-- Oracles for the movie demo: two candidate releases, dispatch
succeeds. -/
def demoMovieDeps : Deps :=
  ⟨fun _ => [demoRelSmall, demoRelBig], fun _ _ _ => [], fun _ => true, "/dl"⟩

/-- A released movie subscription. -/
def demoMovieSub : Subscription :=
  { id := "movie_2", tmdb_id := 2, media_type := "movie", title := "M2",
    poster_path := "", release_date := some "2020-01-01" }

/-- An active subscription whose next check is at instant 100. -/
def demoFutureSub : Subscription :=
  { id := "movie_3", tmdb_id := 3, media_type := "movie", title := "M3",
    poster_path := "", next_check_time := TimeVal.time 100 }

/-- An active subscription due immediately (`next_check_time` falsy). -/
def demoDueSub : Subscription :=
  { id := "movie_4", tmdb_id := 4, media_type := "movie", title := "M4",
    poster_path := "" }

/-- Oracles that find nothing and reject every dispatch. -/
def demoNullDeps : Deps :=
  ⟨fun _ => [], fun _ _ _ => [], fun _ => false, "/dl"⟩

/-- Add-time oracles for a movie: metadata succeeds, and the directory
resolver would answer cid 99 for every path (it is never consulted on
the movie path). -/
def demoMovieAddDeps : AddDeps :=
  ⟨fun _ => Except.ok ⟨some "2020-01-01"⟩, fun _ _ => Except.error "no",
   fun _ => Except.ok 99, demoNullDeps⟩

/-- A movie add request. -/
def demoMovieReq : SubscriptionRequest := ⟨"movie", 3, "M", "", 1, 1⟩

/-- A five-episode season with no air dates. -/
def demoSeason : SeasonInfo := ⟨5, []⟩

/-- Add-time oracles for a series: season metadata succeeds and the
directory resolver answers cid 99. -/
def demoTvAddDeps : AddDeps :=
  ⟨fun _ => Except.error "no", fun _ _ => Except.ok demoSeason,
   fun _ => Except.ok 99, demoNullDeps⟩

/-- A series add request. -/
def demoTvReq : SubscriptionRequest := ⟨"tv", 4, "S", "", 1, 1⟩

/-- A stored subscription whose id collides with `demoReq7`. -/
def demoDupSub : Subscription :=
  { id := "movie_7", tmdb_id := 7, media_type := "movie", title := "M7",
    poster_path := "" }

/-- An add request whose derived id is `movie_7`. -/
def demoReq7 : SubscriptionRequest := ⟨"movie", 7, "M7", "", 1, 1⟩


theorem sizeLe_refl (a : SizeVal) : sizeLe a a :=
  Nat.le_refl _

theorem sizeLe_of_lt {a b : SizeVal} (h : sizeLt a b = true) : sizeLe a b := by
  simp only [sizeLt, decide_eq_true_eq] at h
  exact Nat.le_of_lt h


theorem sizeLe_of_not_lt {a b : SizeVal} (h : ¬ sizeLt a b = true) : sizeLe b a := by
  simp only [sizeLt, decide_eq_true_eq, Nat.not_lt] at h
  exact h

theorem sizeLe_trans {a b c : SizeVal} (h1 : sizeLe a b) (h2 : sizeLe b c) : sizeLe a c := by
  unfold sizeLe at h1 h2 ⊢
  have hb : 0 < 10 ^ b.scale := pow_pos (by norm_num) _
  have h1' := Nat.mul_le_mul_right (10 ^ c.scale) h1
  have h2' := Nat.mul_le_mul_right (10 ^ a.scale) h2
  have key : a.mant * 10 ^ c.scale * 10 ^ b.scale ≤ c.mant * 10 ^ a.scale * 10 ^ b.scale := by
    calc a.mant * 10 ^ c.scale * 10 ^ b.scale
        = a.mant * 10 ^ b.scale * 10 ^ c.scale := by ring
      _ ≤ b.mant * 10 ^ a.scale * 10 ^ c.scale := h1'
      _ = b.mant * 10 ^ c.scale * 10 ^ a.scale := by ring
      _ ≤ c.mant * 10 ^ b.scale * 10 ^ a.scale := h2'
      _ = c.mant * 10 ^ a.scale * 10 ^ b.scale := by ring
  exact Nat.le_of_mul_le_mul_right key hb

theorem selectBest_eq_nil : ∀ {rs : List Release}, selectBest rs = Option.none → rs = [] := by
  intro rs h
  cases rs with
  | nil => rfl
  | cons a t =>
    exfalso
    simp only [selectBest] at h
    cases hb : selectBest t with
    | none => simp only [hb] at h; exact Option.noConfusion h
    | some b =>
      simp only [hb] at h
      by_cases hlt : sizeLt (parseSize a.size) (parseSize b.size) = true
      · rw [if_pos hlt] at h; exact Option.noConfusion h
      · rw [if_neg hlt] at h; exact Option.noConfusion h

theorem selectBest_mem {l : List Release} {r : Release} (h : selectBest l = some r) :
    r ∈ l := by
  induction l generalizing r with
  | nil => simp [selectBest] at h
  | cons a rs ih =>
    simp only [selectBest] at h
    cases hb : selectBest rs with
    | none =>
      simp only [hb] at h
      cases h
      exact List.mem_cons_self a rs
    | some b =>
      simp only [hb] at h
      by_cases hlt : sizeLt (parseSize a.size) (parseSize b.size) = true
      · rw [if_pos hlt] at h
        cases h
        exact List.mem_cons_of_mem a (ih hb)
      · rw [if_neg hlt] at h
        cases h
        exact List.mem_cons_self a rs

theorem selectBest_max {l : List Release} {r : Release} (h : selectBest l = some r) :
    ∀ x ∈ l, sizeLe (parseSize x.size) (parseSize r.size) := by
  induction l generalizing r with
  | nil => simp [selectBest] at h
  | cons a rs ih =>
    simp only [selectBest] at h
    cases hb : selectBest rs with
    | none =>
      simp only [hb] at h
      cases h
      have hnil : rs = [] := selectBest_eq_nil hb
      subst hnil
      intro x hx
      rw [List.mem_singleton] at hx
      subst hx
      exact sizeLe_refl _
    | some b =>
      simp only [hb] at h
      by_cases hlt : sizeLt (parseSize a.size) (parseSize b.size) = true
      · rw [if_pos hlt] at h
        cases h
        intro x hx
        rcases List.mem_cons.mp hx with rfl | hxs
        · exact sizeLe_of_lt hlt
        · exact ih hb x hxs
      · rw [if_neg hlt] at h
        cases h
        intro x hx
        rcases List.mem_cons.mp hx with rfl | hxs
        · exact sizeLe_refl _
        · exact sizeLe_trans (ih hb x hxs) (sizeLe_of_not_lt hlt)

theorem selectBest_first {l : List Release} {r : Release} (h : selectBest l = some r) :
    ∃ i, ∃ hi : i < l.length, l.get ⟨i, hi⟩ = r ∧
      ∀ x ∈ l.take i, sizeLt (parseSize x.size) (parseSize r.size) = true := by
  induction l generalizing r with
  | nil => simp [selectBest] at h
  | cons a rs ih =>
    simp only [selectBest] at h
    cases hb : selectBest rs with
    | none =>
      simp only [hb] at h
      cases h
      exact ⟨0, Nat.succ_pos _, rfl, by simp⟩
    | some b =>
      simp only [hb] at h
      by_cases hlt : sizeLt (parseSize a.size) (parseSize b.size) = true
      · rw [if_pos hlt] at h
        cases h
        rcases ih hb with ⟨i, hi, hget, htake⟩
        refine ⟨i + 1, Nat.succ_lt_succ hi, ?_, ?_⟩
        · simpa using hget
        · intro x hx
          rw [List.take_succ_cons, List.mem_cons] at hx
          rcases hx with rfl | hx
          · exact hlt
          · exact htake x hx
      · rw [if_neg hlt] at h
        cases h
        exact ⟨0, Nat.succ_pos _, rfl, by simp⟩

theorem tvStep_target (now : Nat) (today : String) (deps : Deps) (path : String)
    (sub : Subscription) :
    (tvStep now today deps path sub).target = sub.current_episode + 1 := by
  unfold tvStep tvFetch performDownload deferCheck
  dsimp only
  repeat' split
  all_goals rfl

theorem tvStep_frame (now : Nat) (today : String) (deps : Deps) (path : String)
    (sub : Subscription) :
    (tvStep now today deps path sub).sub.id = sub.id ∧
    (tvStep now today deps path sub).sub.save_cid = sub.save_cid ∧
    ((tvStep now today deps path sub).sub.status = sub.status ∨
      (tvStep now today deps path sub).sub.status = "completed") ∧
    (tvStep now today deps path sub).sub.media_type = sub.media_type ∧
    ∀ c ∈ (tvStep now today deps path sub).calls, c.to_cid = sub.save_cid := by
  unfold tvStep tvFetch performDownload deferCheck
  dsimp only
  repeat' split
  all_goals simp_all

theorem processTvAux_frame (fuel now : Nat) (today : String) (deps : Deps) (path : String)
    (sub : Subscription) :
    (processTvAux fuel now today deps path sub).1.id = sub.id ∧
    (processTvAux fuel now today deps path sub).1.save_cid = sub.save_cid ∧
    ((processTvAux fuel now today deps path sub).1.status = sub.status ∨
      (processTvAux fuel now today deps path sub).1.status = "completed") ∧
    (processTvAux fuel now today deps path sub).1.media_type = sub.media_type ∧
    ∀ c ∈ (processTvAux fuel now today deps path sub).2.1, c.to_cid = sub.save_cid := by
  induction fuel generalizing sub with
  | zero => simp [processTvAux]
  | succ f ih =>
    rcases tvStep_frame now today deps path sub with ⟨hid, hcid, hst, hmt, hcalls⟩
    simp only [processTvAux]
    cases hc : (tvStep now today deps path sub).ctrl with
    | halt => exact ⟨hid, hcid, hst, hmt, hcalls⟩
    | go =>
      rcases ih ((tvStep now today deps path sub).sub) with ⟨ihid, ihcid, ihst, ihmt, ihcalls⟩
      refine ⟨ihid.trans hid, ihcid.trans hcid, ?_, ihmt.trans hmt, ?_⟩
      · rcases ihst with h | h
        · rcases hst with h2 | h2
          · exact Or.inl (h.trans h2)
          · exact Or.inr (h.trans h2)
        · exact Or.inr h
      · intro c hcm
        rw [List.mem_append] at hcm
        rcases hcm with hcm | hcm
        · exact hcalls c hcm
        · exact hcid ▸ ihcalls c hcm

theorem processTvAux_count (fuel now : Nat) (today : String) (deps : Deps) (path : String)
    (sub : Subscription) :
    (processTvAux fuel now today deps path sub).2.2 ≤ fuel := by
  induction fuel generalizing sub with
  | zero => simp [processTvAux]
  | succ f ih =>
    simp only [processTvAux]
    cases hc : (tvStep now today deps path sub).ctrl with
    | halt => exact Nat.succ_le_succ (Nat.zero_le _)
    | go => exact Nat.succ_le_succ (ih _)

theorem processMovie_frame (now : Nat) (today : String) (deps : Deps) (sub : Subscription) :
    (processMovie now today deps sub).1.id = sub.id ∧
    (processMovie now today deps sub).1.save_cid = sub.save_cid ∧
    ((processMovie now today deps sub).1.status = sub.status ∨
      (processMovie now today deps sub).1.status = "completed") ∧
    (processMovie now today deps sub).1.media_type = sub.media_type ∧
    ∀ c ∈ (processMovie now today deps sub).2, c.to_cid = sub.save_cid := by
  unfold processMovie performDownload deferCheck
  dsimp only
  repeat' split
  all_goals simp_all

/-- C10: for every filename and every sought episode number `d`, the
Pack-Range Extractor returns a value `≥ d`: both range branches clamp
with `max(end, d)` or fall through to `d`, and the no-match and failure
paths return `d`, so the clamp §4.4 asks callers for is already
guaranteed by `_extract_max_episode` itself. -/
theorem extractor_ge_default (s : String) (d : Nat) : d ≤ extractMaxEpisode s d := by
  unfold extractMaxEpisode
  dsimp only
  cases zhSearch (upperChars s) with
  | some e => exact Nat.le_max_right e d
  | none =>
    dsimp only
    cases enSearch (upperChars s) with
    | none => exact Nat.le_refl d
    | some e =>
      dsimp only
      split
      · exact Nat.le_max_right e d
      · exact Nat.le_refl d

/-- C4: the Pack-Range Extractor checks its patterns in order with first
match winning: a `第N-M集` range yields `max(M, input)`; an English
`E N - [E] M` range yields `max(M, input)` when `M < 1900` and falls back
to the input when `M ≥ 1900` (false year match); no match yields the
input unchanged (the function is total, so it never raises and internal
failure is a non-match).  The four concrete evaluations of §8 hold. -/
theorem pack_extractor_spec :
    extractMaxEpisode "Show [第13-16集]" 13 = 16 ∧
    extractMaxEpisode "Show.S01E13-E16.1080p" 13 = 16 ∧
    extractMaxEpisode "Show.EP14" 14 = 14 ∧
    extractMaxEpisode "Show.2026.1080p" 1 = 1 ∧
    (∀ s d m, zhSearch (upperChars s) = some m → extractMaxEpisode s d = max m d) ∧
    (∀ s d m, zhSearch (upperChars s) = Option.none → enSearch (upperChars s) = some m →
      1900 ≤ m → extractMaxEpisode s d = d) ∧
    (∀ s d m, zhSearch (upperChars s) = Option.none → enSearch (upperChars s) = some m →
      m < 1900 → extractMaxEpisode s d = max m d) ∧
    (∀ s d, zhSearch (upperChars s) = Option.none → enSearch (upperChars s) = Option.none →
      extractMaxEpisode s d = d) := by
  refine ⟨by decide, by decide, by decide, by decide, ?_, ?_, ?_, ?_⟩
  · intro s d m h
    unfold extractMaxEpisode
    dsimp only
    rw [h]
  · intro s d m h1 h2 h3
    unfold extractMaxEpisode
    dsimp only
    rw [h1]
    dsimp only
    rw [h2]
    dsimp only
    rw [if_neg (Nat.not_lt.mpr h3)]
  · intro s d m h1 h2 h3
    unfold extractMaxEpisode
    dsimp only
    rw [h1]
    dsimp only
    rw [h2]
    dsimp only
    rw [if_pos h3]
  · intro s d h1 h2
    unfold extractMaxEpisode
    dsimp only
    rw [h1]
    dsimp only
    rw [h2]

/-- Witness for C4: the year-guard branch applied at a concrete title. -/
theorem pack_extractor_spec_witness :
    zhSearch (upperChars "A.E2-2000.B") = Option.none ∧
    enSearch (upperChars "A.E2-2000.B") = some 2000 ∧
    extractMaxEpisode "A.E2-2000.B" 5 = 5 :=
  ⟨by decide, by decide,
   pack_extractor_spec.2.2.2.2.2.1 "A.E2-2000.B" 5 2000 (by decide) (by decide) (by decide)⟩

/-- C8: a single `_process_tv` invocation always terminates; its
episode-advancing loop executes at most `max_loops = 50` iterations
whatever the resource client, dispatcher and extractor return (the
embedding is total by construction). -/
theorem tv_loop_bounded (now : Nat) (today : String) (deps : Deps) (path : String)
    (sub : Subscription) : (processTv now today deps path sub).2.2 ≤ 50 :=
  processTvAux_count 50 now today deps path sub

/-- C2: `completed` is terminal.  A scheduler pass leaves a completed
subscription exactly as it was (whatever the per-subscription step would
do), and no processing step ever moves `status` off `completed`: both
branch processors only ever write `completed` into `status`. -/
theorem completed_is_terminal :
    (∀ (now : Nat) (stepF : StepFun) (s : Subscription),
      s.status = "completed" → checkOne now stepF s = s) ∧
    (∀ (now : Nat) (today : String) (deps : Deps) (s : Subscription),
      s.status = "completed" → (processMovie now today deps s).1.status = "completed") ∧
    (∀ (fuel now : Nat) (today : String) (deps : Deps) (path : String) (s : Subscription),
      s.status = "completed" → (processTvAux fuel now today deps path s).1.status = "completed") := by
  refine ⟨?_, ?_, ?_⟩
  · intro now stepF s h
    unfold checkOne
    rw [if_pos (by simp [h])]
  · intro now today deps s h
    rcases processMovie_frame now today deps s with ⟨_, _, hst, _, _⟩
    rcases hst with h2 | h2
    · rw [h2, h]
    · exact h2
  · intro fuel now today deps path s h
    rcases processTvAux_frame fuel now today deps path s with ⟨_, _, hst, _, _⟩
    rcases hst with h2 | h2
    · rw [h2, h]
    · exact h2

/-- Witness for C2 at a concrete completed subscription. -/
theorem completed_is_terminal_witness :
    checkOne 0 okStep demoCompletedSub = demoCompletedSub :=
  completed_is_terminal.1 0 okStep demoCompletedSub (by decide)

/-- C5: in a scheduler pass, a non-completed subscription with a
well-formed `next_check_time` strictly later than `now` is skipped with
every field unchanged, while a missing or malformed `next_check_time`
makes the subscription due: it is processed exactly as `runDue` does. -/
theorem due_gate_spec :
    (∀ (now : Nat) (stepF : StepFun) (s : Subscription) (t : Nat),
      s.status ≠ "completed" → s.next_check_time = TimeVal.time t → now < t →
      checkOne now stepF s = s) ∧
    (∀ (now : Nat) (stepF : StepFun) (s : Subscription),
      s.status ≠ "completed" →
      (s.next_check_time = TimeVal.none ∨ ∃ raw, s.next_check_time = TimeVal.bad raw) →
      checkOne now stepF s = runDue now stepF s) := by
  constructor
  · intro now stepF s t hst hn hlt
    unfold checkOne dueNow
    rw [hn]
    rw [if_neg (by simp [hst])]
    simp [hlt]
  · intro now stepF s hst hn
    unfold checkOne dueNow
    rcases hn with hn | ⟨raw, hn⟩ <;>
      rw [hn, if_neg (by simp [hst])] <;> rfl

/-- Witness for C5: a future timestamp is skipped unchanged. -/
theorem due_gate_spec_witness :
    checkOne 0 okStep demoFutureSub = demoFutureSub :=
  due_gate_spec.1 0 okStep demoFutureSub 100 (by decide) (by decide) (by decide)

/-- C9: a scheduler pass handles the list pointwise — the subscriptions
around any given one are processed exactly as they would be in its
absence, so a failure cannot propagate — and when the step of a due,
active subscription raises, the error text is recorded into that
subscription's `message` (and nothing else of it changes). -/
theorem scheduler_error_isolation :
    (∀ (now : Nat) (stepF : StepFun) (l1 : List Subscription) (s : Subscription)
        (l2 : List Subscription),
      checkAll now stepF (l1 ++ s :: l2) =
        checkAll now stepF l1 ++ checkOne now stepF s :: checkAll now stepF l2) ∧
    (∀ (now : Nat) (stepF : StepFun) (s : Subscription) (e : String),
      s.status ≠ "completed" → dueNow now s = true → stepF s = Except.error e →
      checkOne now stepF s = { s with message := "检查出错: " ++ e }) := by
  constructor
  · intro now stepF l1 s l2
    induction l1 with
    | nil => rfl
    | cons a t ih => simp [checkAll, ih]
  · intro now stepF s e hst hdue herr
    unfold checkOne runDue
    rw [if_neg (by simp [hst]), if_pos hdue, herr]

/-- Witness for C9: a raising step stamps the error into `message`. -/
theorem scheduler_error_isolation_witness :
    checkOne 0 errStep demoDueSub = { demoDueSub with message := "检查出错: 连接失败" } :=
  scheduler_error_isolation.2 0 errStep demoDueSub "连接失败" (by decide) (by decide) rfl

theorem addSubscription_cases (now : Nat) (today : String) (adeps : AddDeps)
    (req : SubscriptionRequest) (subs : List Subscription) :
    (addSubscription now today adeps req subs).2 = subs ∨
    (subs.any (fun x => x.id == derivedId req) = false ∧
     ∃ s3, (addSubscription now today adeps req subs).2 = subs ++ [s3] ∧
       s3.id = derivedId req) := by
  unfold addSubscription processTv
  dsimp only
  by_cases hany : subs.any (fun x => x.id == derivedId req) = true
  · rw [if_pos hany]
    exact Or.inl rfl
  · have hany' : subs.any (fun x => x.id == derivedId req) = false :=
      Bool.eq_false_iff.mpr hany
    rw [if_neg hany]
    split
    · cases hmd : adeps.movieDetails req.tmdb_id with
      | error e => exact Or.inl rfl
      | ok det =>
        dsimp only
        refine Or.inr ⟨hany', _, rfl, ?_⟩
        rw [(processMovie_frame now today adeps.deps _).1]
    · cases hsi : adeps.seasonInfo req.tmdb_id req.season_number with
      | error e => exact Or.inl rfl
      | ok info =>
        dsimp only
        cases hrc : adeps.resolveCid (targetPath adeps.deps.downloadPath req.title) with
        | ok cid =>
          dsimp only
          refine Or.inr ⟨hany', _, rfl, ?_⟩
          rw [(processTvAux_frame 50 now today adeps.deps _ _).1]
        | error e =>
          dsimp only
          refine Or.inr ⟨hany', _, rfl, ?_⟩
          rw [(processTvAux_frame 50 now today adeps.deps _ _).1]

/-- C7: an add request whose derived id collides with a stored
subscription fails with the duplicate message and leaves the whole list
(hence the existing record) unchanged; consequently a list of pairwise
distinct ids still has pairwise distinct ids after any add. -/
theorem duplicate_add_rejected :
    (∀ (now : Nat) (today : String) (adeps : AddDeps) (req : SubscriptionRequest)
        (subs : List Subscription),
      (∃ s ∈ subs, s.id = derivedId req) →
      addSubscription now today adeps req subs = ((false, "已在订阅列表中"), subs)) ∧
    (∀ (now : Nat) (today : String) (adeps : AddDeps) (req : SubscriptionRequest)
        (subs : List Subscription),
      (subs.map Subscription.id).Nodup →
      ((addSubscription now today adeps req subs).2.map Subscription.id).Nodup) := by
  constructor
  · intro now today adeps req subs hex
    rcases hex with ⟨s, hs, hid⟩
    have hany : subs.any (fun x => x.id == derivedId req) = true :=
      List.any_eq_true.mpr ⟨s, hs, by simp [hid]⟩
    unfold addSubscription
    dsimp only
    rw [if_pos hany]
  · intro now today adeps req subs hnd
    rcases addSubscription_cases now today adeps req subs with h | ⟨hany, s3, heq, hid⟩
    · rw [h]; exact hnd
    · rw [heq, List.map_append, List.nodup_append]
      refine ⟨hnd, List.nodup_singleton _, ?_⟩
      intro a ha hb
      rw [List.map_singleton, List.mem_singleton] at hb
      subst hb
      rw [hid] at ha
      rcases List.mem_map.mp ha with ⟨x, hx, hxid⟩
      have hx2 : subs.any (fun x => x.id == derivedId req) = true :=
        List.any_eq_true.mpr ⟨x, hx, by simp [hxid]⟩
      rw [hany] at hx2
      exact Bool.noConfusion hx2

/-- Witness for C7: a concrete duplicate add is rejected unchanged. -/
theorem duplicate_add_rejected_witness :
    addSubscription 0 "2026-01-01" demoMovieAddDeps demoReq7 [demoDupSub] =
      ((false, "已在订阅列表中"), [demoDupSub]) :=
  duplicate_add_rejected.1 0 "2026-01-01" demoMovieAddDeps demoReq7 [demoDupSub]
    ⟨demoDupSub, by simp, by decide⟩

/-- C1: in the series branch, when the season is not finished, the target
episode has aired, a release is chosen and its dispatch succeeds, the
iteration sets `current_episode = max(extractor result, target)`, sets
`next_check_time = now`, and continues the loop; the next iteration then
targets `current_episode + 1`. -/
theorem series_pack_advance (now : Nat) (today : String) (deps : Deps) (path : String)
    (sub : Subscription) (tgt : Release)
    (hfin : finishedGate sub = false)
    (hair : airGate today sub = false)
    (hsel : selectBest ((deps.fetchEp sub.tmdb_id sub.season_number
      (sub.current_episode + 1)).filter acceptRes) = some tgt)
    (hdl : deps.dispatch ⟨tgt.link, sub.save_cid, some path⟩ = true) :
    (tvStep now today deps path sub).ctrl = TvCtrl.go ∧
    (tvStep now today deps path sub).sub.current_episode =
      max (extractMaxEpisode tgt.title (sub.current_episode + 1)) (sub.current_episode + 1) ∧
    (tvStep now today deps path sub).sub.next_check_time = TimeVal.time now ∧
    (tvStep now today deps path (tvStep now today deps path sub).sub).target =
      (tvStep now today deps path sub).sub.current_episode + 1 := by
  have hacc : acceptRes tgt = true := (List.mem_filter.mp (selectBest_mem hsel)).2
  have hkind : tgt.link_type = "magnet" ∨ tgt.link_type = "ed2k" := by
    simp only [acceptRes, Bool.and_eq_true, Bool.or_eq_true, beq_iff_eq] at hacc
    exact hacc.2
  refine ?_
  have hstep : tvStep now today deps path sub =
      tvFetch now deps path sub (sub.current_episode + 1) := by
    unfold tvStep
    rw [if_neg (by rw [hfin]; exact Bool.false_ne_true),
        if_neg (by rw [hair]; exact Bool.false_ne_true)]
  rw [hstep]
  unfold tvFetch performDownload
  dsimp only
  rw [hsel]
  dsimp only
  rw [if_pos hkind]
  dsimp only
  rw [hdl]
  rw [if_pos rfl]
  refine ⟨rfl, ?_, rfl, tvStep_target now today deps path _⟩
  split
  case isTrue hlt =>
    exact (Nat.max_eq_left (Nat.le_of_lt hlt)).symm
  case isFalse hlt =>
    exact (Nat.max_eq_right (Nat.le_of_not_lt hlt)).symm

/-- Witness for C1: from `current_episode = 12`, a pack release whose
extractor result is 15 advances to 15, and the next iteration targets
episode 16. -/
theorem series_pack_advance_witness :
    (tvStep 0 "2026-01-01" demoTvDeps "/dl/S" demoTvSub).sub.current_episode = 15 ∧
    (tvStep 0 "2026-01-01" demoTvDeps "/dl/S"
      (tvStep 0 "2026-01-01" demoTvDeps "/dl/S" demoTvSub).sub).target = 16 ∧
    (tvStep 0 "2026-01-01" demoTvDeps "/dl/S" demoTvSub).ctrl = TvCtrl.go := by
  have h := series_pack_advance 0 "2026-01-01" demoTvDeps "/dl/S" demoTvSub demoPackRelease
    (by decide) (by decide) (by decide) rfl
  have hmax : max (extractMaxEpisode demoPackRelease.title (demoTvSub.current_episode + 1))
      (demoTvSub.current_episode + 1) = 15 := by decide
  have hcur : (tvStep 0 "2026-01-01" demoTvDeps "/dl/S" demoTvSub).sub.current_episode = 15 :=
    h.2.1.trans hmax
  exact ⟨hcur, by rw [h.2.2.2, hcur], h.1⟩

/-- C3: for a movie not gated by a future release date, candidates are
filtered to releases with a link of one of the two accepted
peer-to-peer kinds; an empty remainder defers by 8 hours leaving the
status untouched; otherwise the dispatched release is the one with the
largest parsed size, ties broken by discovery order (it is the first
index attaining the maximum); dispatch success completes the
subscription, dispatch failure defers by 8 hours; and the dispatcher
returns failure without any backend call for a non-accepted link kind. -/
theorem movie_branch_spec (now : Nat) (today : String) (deps : Deps) (sub : Subscription)
    (hgate : releaseGate today sub = false) :
    (∀ r ∈ (deps.fetchMovie sub.tmdb_id).filter acceptRes,
      r.link_type = "magnet" ∨ r.link_type = "ed2k") ∧
    ((deps.fetchMovie sub.tmdb_id).filter acceptRes = [] →
      processMovie now today deps sub =
        ({ sub with message := "暂无磁力/Ed2k资源",
                    next_check_time := TimeVal.time (now + 8 * 3600) }, [])) ∧
    (∀ tgt, selectBest ((deps.fetchMovie sub.tmdb_id).filter acceptRes) = some tgt →
      (tgt ∈ (deps.fetchMovie sub.tmdb_id).filter acceptRes ∧
        (∀ x ∈ (deps.fetchMovie sub.tmdb_id).filter acceptRes,
          sizeLe (parseSize x.size) (parseSize tgt.size)) ∧
        ∃ i, ∃ hi : i < ((deps.fetchMovie sub.tmdb_id).filter acceptRes).length,
          ((deps.fetchMovie sub.tmdb_id).filter acceptRes).get ⟨i, hi⟩ = tgt ∧
          ∀ x ∈ ((deps.fetchMovie sub.tmdb_id).filter acceptRes).take i,
            sizeLt (parseSize x.size) (parseSize tgt.size) = true) ∧
      (deps.dispatch ⟨tgt.link, sub.save_cid, some deps.downloadPath⟩ = true →
        processMovie now today deps sub =
          ({ sub with status := "completed",
                      message := "已获取资源: " ++ tgt.title ++ " (" ++ tgt.size ++ ")" },
            [⟨tgt.link, sub.save_cid, some deps.downloadPath⟩])) ∧
      (deps.dispatch ⟨tgt.link, sub.save_cid, some deps.downloadPath⟩ = false →
        processMovie now today deps sub =
          ({ sub with message := "下载任务添加失败，稍后重试",
                      next_check_time := TimeVal.time (now + 8 * 3600) },
            [⟨tgt.link, sub.save_cid, some deps.downloadPath⟩]))) ∧
    (∀ (r : Release) (cid sp : Option String),
      ¬(r.link_type = "magnet" ∨ r.link_type = "ed2k") →
      performDownload deps r cid sp = (false, [])) := by
  refine ⟨?_, ?_, ?_, ?_⟩
  · intro r hr
    have hacc : acceptRes r = true := (List.mem_filter.mp hr).2
    simp only [acceptRes, Bool.and_eq_true, Bool.or_eq_true, beq_iff_eq] at hacc
    exact hacc.2
  · intro hempty
    unfold processMovie deferCheck
    rw [if_neg (by rw [hgate]; exact Bool.false_ne_true)]
    dsimp only
    rw [hempty]
    rfl
  · intro tgt hsel
    have hacc : acceptRes tgt = true := (List.mem_filter.mp (selectBest_mem hsel)).2
    have hkind : tgt.link_type = "magnet" ∨ tgt.link_type = "ed2k" := by
      simp only [acceptRes, Bool.and_eq_true, Bool.or_eq_true, beq_iff_eq] at hacc
      exact hacc.2
    refine ⟨⟨selectBest_mem hsel, selectBest_max hsel, selectBest_first hsel⟩, ?_, ?_⟩
    · intro hdisp
      unfold processMovie performDownload
      rw [if_neg (by rw [hgate]; exact Bool.false_ne_true)]
      dsimp only
      rw [hsel]
      dsimp only
      rw [if_pos hkind]
      dsimp only
      rw [hdisp]
      rw [if_pos rfl]
    · intro hdisp
      unfold processMovie performDownload deferCheck
      rw [if_neg (by rw [hgate]; exact Bool.false_ne_true)]
      dsimp only
      rw [hsel]
      dsimp only
      rw [if_pos hkind]
      dsimp only
      rw [hdisp]
      rw [if_neg Bool.false_ne_true]
  · intro r cid sp hk
    unfold performDownload
    rw [if_neg hk]

/-- Witness for C3: with a 300 MB and a 1.5 GB candidate and a
successful dispatcher, the larger one is dispatched and the
subscription completes. -/
theorem movie_branch_spec_witness :
    releaseGate "2026-01-01" demoMovieSub = false ∧
    (processMovie 0 "2026-01-01" demoMovieDeps demoMovieSub).1.status = "completed" ∧
    (processMovie 0 "2026-01-01" demoMovieDeps demoMovieSub).2 =
      [⟨demoRelBig.link, demoMovieSub.save_cid, some demoMovieDeps.downloadPath⟩] := by
  have h := movie_branch_spec 0 "2026-01-01" demoMovieDeps demoMovieSub (by decide)
  have hsucc := (h.2.2.1 demoRelBig (by decide)).2.1 rfl
  exact ⟨by decide, by rw [hsucc], by rw [hsucc]⟩

/-- Counterexample to C6 as stated: for a movie add request, even with a
directory resolver that answers cid 99 for every path, the stored
subscription carries no resolved save target (`save_cid = None`) — the
add operation only resolves a save target for series. -/
theorem save_target_movie_counterexample :
    demoMovieAddDeps.resolveCid
      (targetPath demoMovieAddDeps.deps.downloadPath demoMovieReq.title) = Except.ok 99 ∧
    ((addSubscription 0 "2026-01-01" demoMovieAddDeps demoMovieReq []).2.map
      Subscription.save_cid) = [Option.none] :=
  ⟨rfl, by decide⟩

/-- C6 (amended): only series adds resolve a save target — a tv add
with successful season metadata and resolver stores the resolved cid
(and a movie add leaves `save_cid` unset, see the counterexample) — and
every download dispatched for a subscription passes that subscription's
stored `save_cid`, which no processing step ever modifies. -/
theorem save_target_amended :
    (∀ (now : Nat) (today : String) (adeps : AddDeps) (req : SubscriptionRequest)
        (subs : List Subscription) (info : SeasonInfo) (cid : Nat),
      req.media_type = "tv" →
      subs.any (fun x => x.id == derivedId req) = false →
      adeps.seasonInfo req.tmdb_id req.season_number = Except.ok info →
      adeps.resolveCid (targetPath adeps.deps.downloadPath req.title) = Except.ok cid →
      ∃ s3, (addSubscription now today adeps req subs).2 = subs ++ [s3] ∧
        s3.save_cid = some (toString cid)) ∧
    (∀ (now : Nat) (today : String) (deps : Deps) (s : Subscription),
      (processMovie now today deps s).1.save_cid = s.save_cid ∧
      ∀ c ∈ (processMovie now today deps s).2, c.to_cid = s.save_cid) ∧
    (∀ (fuel now : Nat) (today : String) (deps : Deps) (path : String) (s : Subscription),
      (processTvAux fuel now today deps path s).1.save_cid = s.save_cid ∧
      ∀ c ∈ (processTvAux fuel now today deps path s).2.1, c.to_cid = s.save_cid) := by
  refine ⟨?_, ?_, ?_⟩
  · intro now today adeps req subs info cid hmt hany hsi hrc
    unfold addSubscription processTv
    dsimp only
    rw [if_neg (by rw [hany]; exact Bool.false_ne_true)]
    rw [hmt, if_neg (by decide)]
    rw [hsi]
    dsimp only
    rw [hrc]
    dsimp only
    refine ⟨_, rfl, ?_⟩
    rw [(processTvAux_frame 50 now today adeps.deps _ _).2.1]
  · intro now today deps s
    exact ⟨(processMovie_frame now today deps s).2.1,
           (processMovie_frame now today deps s).2.2.2.2⟩
  · intro fuel now today deps path s
    exact ⟨(processTvAux_frame fuel now today deps path s).2.1,
           (processTvAux_frame fuel now today deps path s).2.2.2.2⟩

/-- Witness for the amended C6: a concrete series add stores the
resolved cid 99. -/
theorem save_target_amended_witness :
    ((addSubscription 0 "2026-01-01" demoTvAddDeps demoTvReq []).2.map
      Subscription.save_cid) = [some "99"] := by
  obtain ⟨s3, h1, h2⟩ := save_target_amended.1 0 "2026-01-01" demoTvAddDeps demoTvReq []
    demoSeason 99 rfl (by decide) rfl rfl
  rw [h1, List.nil_append, List.map_singleton, h2]
  rfl
